import Mathlib

/-!
# Shallow embedding of the EKA2L1 inet socket bridge

This file embeds `src/src/emu/services/src/internet/protocols/socket.cpp`
(the guest-socket-to-host-socket bridge of EKA2L1) as executable Lean
definitions, and proves properties of the embedded operations.

Modelling conventions:

* Each `inet_socket` method becomes a pure function from the session state to
  a new state together with a list of observable events (`Event`): guest
  notification completions, work posted to the loop thread via
  `uv_async_init`/`uv_async_send`, direct host calls made on the current
  thread, writes through the guest out-pointers, the receive side callback,
  and `nullDeref` marking a dereference of a null pointer (undefined
  behaviour in the C++ source; the model halts the operation there).
* C++ pointers that only matter by their presence (the native handle
  `opaque_handle_`, the request records `opaque_connect_`,
  `opaque_send_info_`, `opaque_write_info_`, the guest out-pointers
  `sent_size`/`recv_size`, the pending `notify_info` slots) are modelled as
  `Bool` presence flags.  To satisfy the identifier conventions of this
  development the four opaque records are named `handle_`, `connect_req_`,
  `send_req_`, `write_req_`; all other field names follow the source.
* `epoc::notify_info` is outside `src/`.  Modelled from the spec: a
  single-shot completion slot, `complete` fires at most once and clears the
  slot; completing an empty slot is a no-op.  A pending slot is `true`.
* `common::ring_buffer<char, 0x80000>` is outside `src/`.  Modelled from the
  spec: a bounded FIFO byte queue; `push` appends bytes, `pop n` removes the
  first `n` bytes (the capacity 0x80000 is far beyond every state considered
  here and is not modelled).
* Native (libuv) status codes are `Int`, with the named constants given the
  values libuv uses on Linux.  Native completion results that the real code
  receives from callbacks appear as explicit oracle arguments.
-/

namespace Inet

/-- Guest-visible result codes: the `epoc::error_*` constants the source
completes notifications with. -/
inductive GuestErr where
  | error_none
  | error_not_ready
  | error_in_use
  | error_argument
  | error_not_supported
  | error_permission_denied
  | error_server_busy
  | error_timed_out
  | error_general
  | error_cancel
  | error_eof
  deriving DecidableEq

/-- The three per-kind pending-operation slots of a session. -/
inductive OpKind where
  | conn
  | snd
  | rcv
  deriving DecidableEq

/-- A unit of work posted to the loop thread (one `uv_async_init` +
`uv_async_send` pair in the source). -/
inductive Work where
  | sockInit
  | udpConnect
  | tcpConnect
  | udpSend
  | tcpWrite
  | udpRecvStart
  | tcpReadStart
  | udpRecvStop
  | tcpReadStop
  | closeHandle
  deriving DecidableEq

/-- A native call issued directly on the currently running thread (not
posted through an async). -/
inductive HostCall where
  | udpBind
  | tcpBind
  | udpRecvStopNow
  | tcpReadStopNow
  deriving DecidableEq

/-- Observable effects of one embedded operation, in program order. -/
inductive Event where
  | completeSupplied (code : GuestErr)
  | completeStored (k : OpKind) (code : GuestErr)
  | post (w : Work)
  | hostCall (h : HostCall)
  | setBytesWritten (n : Nat)
  | setBytesRead (n : Nat)
  | wroteDest (bytes : List Nat)
  | sideCb (n : Int)
  | nullDeref
  deriving DecidableEq

/-- True exactly on loop-thread work posts. -/
def isPost : Event → Bool
  | .post _ => true
  | _ => false

/-- True exactly on completion events (of either a stored slot or the
supplied notification). -/
def isCompletion : Event → Bool
  | .completeSupplied _ => true
  | .completeStored _ _ => true
  | _ => false

/-- Family id for IPv4 guest addresses (KAfInet; header value outside
src/, only its distinctness matters to this model). -/
def INET_ADDRESS_FAMILY : Nat := 0x0800

/-- Family id for IPv6 guest addresses (KAfInet6). -/
def INET6_ADDRESS_FAMILY : Nat := 0x0600

/-- The family tag marking an absent / invalid address
(`epoc::socket::INVALID_FAMILY_ID`, header value outside src/). -/
def INVALID_FAMILY_ID : Nat := 0

/-- KProtocolInetUdp. -/
def INET_UDP_PROTOCOL_ID : Nat := 17

/-- KProtocolInetTcp. -/
def INET_TCP_PROTOCOL_ID : Nat := 6

/-- The receive flag bit meaning take whatever is available instead of
waiting for the full requested count (header value outside src/; the model
only relies on it being one fixed bit). -/
def SOCKET_FLAG_DONT_WAIT_FULL : Nat := 0x100

/-- libuv status constants (Linux values). -/
def UV_EACCES : Int := -13

/-- libuv EADDRINUSE. -/
def UV_EADDRINUSE : Int := -98

/-- libuv EADDRNOTAVAIL. -/
def UV_EADDRNOTAVAIL : Int := -99

/-- libuv EAFNOSUPPORT. -/
def UV_EAFNOSUPPORT : Int := -97

/-- libuv ECONNREFUSED. -/
def UV_ECONNREFUSED : Int := -111

/-- libuv ENOTSUP. -/
def UV_ENOTSUP : Int := -95

/-- libuv ETIMEDOUT. -/
def UV_ETIMEDOUT : Int := -110

/-- libuv end-of-file marker delivered to read callbacks. -/
def UV_EOF : Int := -4095

/-- Guest-neutral socket address (`epoc::socket::saddress`, with the
`sinet6_address` view flattened in: `flow_` and `scope_` are only read when
the family is IPv6). -/
structure SAddress where
  family_ : Nat
  port_ : Nat
  user_data_ : List Nat
  flow_ : Nat
  scope_ : Nat
  deriving DecidableEq

/-- The address value whose family is `INVALID_FAMILY_ID`. -/
def invalid_saddress : SAddress :=
  { family_ := INVALID_FAMILY_ID, port_ := 0, user_data_ := [], flow_ := 0, scope_ := 0 }

/-- A native `sockaddr` as the delivery callback sees it. `sin_port` and
`sin6_port` hold the stored (network order) port value, exactly the raw
field the source compares. -/
inductive NativeAddr where
  | v4 (sin_port : Nat) (sin_addr : List Nat)
  | v6 (sin6_port : Nat) (sin6_flowinfo : Nat) (sin6_scope_id : Nat) (sin6_addr : List Nat)
  deriving DecidableEq

/-- `is_same_address` (socket.cpp lines 598-623): field-by-field comparison
of a guest filter address against an arriving native sender address. -/
def is_same_address (addr_requested : SAddress) (addr_to_check : NativeAddr) : Bool :=
  if addr_requested.family_ = INET_ADDRESS_FAMILY then
    match addr_to_check with
    | .v4 p a => p == addr_requested.port_ && a.take 4 == addr_requested.user_data_.take 4
    | .v6 _ _ _ _ => false
  else
    match addr_to_check with
    | .v4 _ _ => false
    | .v6 p f sc a =>
      p == addr_requested.port_ && sc == addr_requested.scope_ &&
        f == addr_requested.flow_ && a.take 16 == addr_requested.user_data_.take 16

/-- `epoc::socket::socket_type`. -/
inductive socket_type where
  | socket_type_stream
  | socket_type_datagram
  | socket_type_undefined
  deriving DecidableEq

/-- Per-session state of `inet_socket`.  `handle_`, `connect_req_`,
`send_req_`, `write_req_` are the presence flags of `opaque_handle_`,
`opaque_connect_`, `opaque_send_info_`, `opaque_write_info_`; the three
`*_done_info_` fields are the pending notification slots (`true` =
pending); `bytes_written_`/`bytes_read_` are the presence of the guest
out-pointers; `stream_data_buffer_` is the lazily created stream
accumulator holding its byte content. -/
structure inet_socket where
  handle_ : Bool
  protocol_ : Nat
  connect_done_info_ : Bool
  send_done_info_ : Bool
  recv_done_info_ : Bool
  connect_req_ : Bool
  send_req_ : Bool
  write_req_ : Bool
  bytes_written_ : Bool
  bytes_read_ : Bool
  recv_size_ : Nat
  take_available_only_ : Bool
  receive_done_cb_ : Bool
  stream_data_buffer_ : Option (List Nat)
  listen_addr_ : SAddress
  deriving DecidableEq

/-- A freshly constructed session: no native handle, no protocol, nothing
pending. -/
def inet_socket.init : inet_socket :=
  { handle_ := false
    protocol_ := 0
    connect_done_info_ := false
    send_done_info_ := false
    recv_done_info_ := false
    connect_req_ := false
    send_req_ := false
    write_req_ := false
    bytes_written_ := false
    bytes_read_ := false
    recv_size_ := 0
    take_available_only_ := false
    receive_done_cb_ := false
    stream_data_buffer_ := none
    listen_addr_ := invalid_saddress }

/-- Inner part of `inet_socket::open` after the type/protocol validation
(socket.cpp lines 180-237).  The handle is allocated with `new` before the
round trip; `native_init_result` is the value `uv_tcp_init`/`uv_udp_init`
produced on the loop thread.  Note the failure path returns without
clearing the freshly allocated handle. -/
def open_cont (s : inet_socket) (protocol_id : Nat) (native_init_result : Int) :
    inet_socket × Bool × List Event :=
  if s.handle_ then (s, false, [])
  else
    let s := { s with handle_ := true }
    if native_init_result < 0 then (s, false, [Event.post Work.sockInit])
    else ({ s with protocol_ := protocol_id }, true, [Event.post Work.sockInit])

/-- `inet_socket::open` (socket.cpp lines 155-238).  Validates the
(socket type, protocol) pair, refuses an already-open session, then runs a
blocking round trip initialising the native handle. -/
def open_socket (s : inet_socket) (_family_id protocol_id : Nat) (sock_type : socket_type)
    (native_init_result : Int) : inet_socket × Bool × List Event :=
  match sock_type with
  | .socket_type_datagram =>
    if protocol_id ≠ INET_UDP_PROTOCOL_ID then (s, false, [])
    else open_cont s protocol_id native_init_result
  | .socket_type_stream =>
    if protocol_id ≠ INET_TCP_PROTOCOL_ID then (s, false, [])
    else open_cont s protocol_id native_init_result
  | .socket_type_undefined => (s, false, [])

/-- `inet_socket::close_down` (socket.cpp lines 93-141): round trip closing
the native handle when present, then free the per-operation request
records.  The pending notification slots are not touched. -/
def close_down (s : inet_socket) : inet_socket × List Event :=
  let r :=
    if s.handle_ then
      ({ s with handle_ := false, protocol_ := 0 }, [Event.post Work.closeHandle])
    else (s, ([] : List Event))
  ({ r.1 with connect_req_ := false, send_req_ := false, write_req_ := false }, r.2)

/-- `inet_socket::handle_connect_done_error_code` (socket.cpp lines
240-287): translate the native connect result into a guest code and
complete the pending connect notification. -/
def handle_connect_done_error_code (s : inet_socket) (error_code : Int) :
    inet_socket × List Event :=
  if !s.connect_done_info_ then (s, [])
  else if error_code = 0 then
    ({ s with connect_done_info_ := false }, [Event.completeStored OpKind.conn GuestErr.error_none])
  else
    let guest_error_code :=
      if error_code = UV_EACCES then GuestErr.error_permission_denied
      else if error_code = UV_EADDRINUSE then GuestErr.error_in_use
      else if error_code = UV_EADDRNOTAVAIL then GuestErr.error_argument
      else if error_code = UV_EAFNOSUPPORT then GuestErr.error_not_supported
      else if error_code = UV_ECONNREFUSED then GuestErr.error_server_busy
      else if error_code = UV_ENOTSUP then GuestErr.error_not_supported
      else if error_code = UV_ETIMEDOUT then GuestErr.error_timed_out
      else GuestErr.error_general
    ({ s with connect_done_info_ := false }, [Event.completeStored OpKind.conn guest_error_code])

/-- `inet_socket::connect` (socket.cpp lines 315-391): refuse with
NotReady when unopened, InUse when a connect is pending; otherwise store
the notification and post the native connect (allocating the TCP connect
record on first use). -/
def connect (s : inet_socket) (_addr : SAddress) : inet_socket × List Event :=
  if !s.handle_ then (s, [Event.completeSupplied GuestErr.error_not_ready])
  else if s.connect_done_info_ then (s, [Event.completeSupplied GuestErr.error_in_use])
  else
    let s := { s with connect_done_info_ := true }
    if s.protocol_ = INET_UDP_PROTOCOL_ID then (s, [Event.post Work.udpConnect])
    else ({ s with connect_req_ := true }, [Event.post Work.tcpConnect])

/-- `inet_socket::bind` (socket.cpp lines 393-409): NotReady when
unopened; otherwise the host bind is invoked directly on the calling
thread, its result is discarded (`host_bind_result` is never read), and
the supplied notification is completed with None. -/
def bind (s : inet_socket) (_addr : SAddress) (_host_bind_result : Int) :
    inet_socket × List Event :=
  if !s.handle_ then (s, [Event.completeSupplied GuestErr.error_not_ready])
  else if s.protocol_ = INET_UDP_PROTOCOL_ID then
    (s, [Event.hostCall HostCall.udpBind, Event.completeSupplied GuestErr.error_none])
  else
    (s, [Event.hostCall HostCall.tcpBind, Event.completeSupplied GuestErr.error_none])

/-- `inet_socket::send` (socket.cpp lines 480-588): InUse when a send is
pending; otherwise optimistically write the full length through the out
pointer, store the notification and post the native send.  There is no
unopened check; the TCP branch reads `opaque_connect_->handle` on the
calling thread, a null dereference when no connect record exists. -/
def send (s : inet_socket) (data_size : Nat) (sent_size_present : Bool)
    (_addr : Option SAddress) (_flags : Nat) : inet_socket × List Event :=
  if s.send_done_info_ then (s, [Event.completeSupplied GuestErr.error_in_use])
  else
    let wEvs := if sent_size_present then [Event.setBytesWritten data_size] else []
    let s := { s with bytes_written_ := sent_size_present, send_done_info_ := true }
    if s.protocol_ = INET_UDP_PROTOCOL_ID then
      ({ s with send_req_ := true }, wEvs ++ [Event.post Work.udpSend])
    else
      let s := { s with write_req_ := true }
      if !s.connect_req_ then (s, wEvs ++ [Event.nullDeref])
      else (s, wEvs ++ [Event.post Work.tcpWrite])

/-- Common tail of `inet_socket::handle_tcp_delivery` (socket.cpp lines
717-731): stop the host read through the connect record, lock the kernel
owner obtained from the pending notification (a null dereference when no
receive is pending), fire the side callback, complete. -/
def tcp_delivery_finish (s : inet_socket) (code : GuestErr) (evs : List Event)
    (bytes_read_arg : Int) : inet_socket × List Event :=
  if !s.connect_req_ then (s, evs ++ [Event.nullDeref])
  else if !s.recv_done_info_ then
    (s, evs ++ [Event.hostCall HostCall.tcpReadStopNow, Event.nullDeref])
  else
    let r :=
      if s.receive_done_cb_ then
        ({ s with receive_done_cb_ := false },
          evs ++ [Event.hostCall HostCall.tcpReadStopNow, Event.sideCb bytes_read_arg])
      else (s, evs ++ [Event.hostCall HostCall.tcpReadStopNow])
    ({ r.1 with recv_done_info_ := false },
      r.2 ++ [Event.completeStored OpKind.rcv code])

/-- `inet_socket::handle_tcp_delivery` (socket.cpp lines 673-732): EOF and
negative statuses complete with Eof/General; a short chunk under
take-available-only is copied straight out; otherwise the chunk is pushed
into the stream accumulator, which is drained once it covers the request
(or at once under take-available-only), an undersized accumulation
returning early with delivery kept armed. -/
def handle_tcp_delivery (s : inet_socket) (bytes_read_arg : Int) (chunk : List Nat) :
    inet_socket × List Event :=
  if bytes_read_arg = UV_EOF then
    tcp_delivery_finish s GuestErr.error_eof [] bytes_read_arg
  else if bytes_read_arg < 0 then
    tcp_delivery_finish s GuestErr.error_general [] bytes_read_arg
  else
    let nread := bytes_read_arg.toNat
    if s.take_available_only_ && decide (s.recv_size_ > nread) then
      let evs := [Event.wroteDest (chunk.take nread)] ++
        (if s.bytes_read_ then [Event.setBytesRead nread] else [])
      tcp_delivery_finish s GuestErr.error_none evs bytes_read_arg
    else
      let buf := (s.stream_data_buffer_.getD []) ++ chunk.take nread
      if s.take_available_only_ || decide (s.recv_size_ ≤ buf.length) then
        let popN := min s.recv_size_ buf.length
        let got := buf.take popN
        let s := { s with stream_data_buffer_ := some (buf.drop popN) }
        let evs := [Event.wroteDest got] ++
          (if s.bytes_read_ then [Event.setBytesRead got.length] else [])
        tcp_delivery_finish s GuestErr.error_none evs bytes_read_arg
      else
        ({ s with stream_data_buffer_ := some buf }, [])

/-- `inet_socket::handle_udp_delivery` (socket.cpp lines 625-671): a
sender failing the armed filter is silently ignored (the host read stays
armed); otherwise the read is stopped, the datagram is truncated into the
guest buffer, and the kernel owner derived from the pending notification
is locked (a null dereference when no receive is pending) before
completing. -/
def handle_udp_delivery (s : inet_socket) (bytes_read_arg : Int) (chunk : List Nat)
    (recv_addr : NativeAddr) : inet_socket × List Event :=
  if s.listen_addr_.family_ ≠ INVALID_FAMILY_ID ∧ ¬is_same_address s.listen_addr_ recv_addr then
    (s, [])
  else if !s.handle_ then (s, [Event.nullDeref])
  else
    let r :=
      if bytes_read_arg = UV_EOF then (GuestErr.error_eof, ([] : List Event))
      else if bytes_read_arg < 0 then (GuestErr.error_general, ([] : List Event))
      else
        let to_write_byte_count := min bytes_read_arg.toNat s.recv_size_
        (GuestErr.error_none,
          [Event.wroteDest (chunk.take to_write_byte_count)] ++
            (if s.bytes_read_ then [Event.setBytesRead to_write_byte_count] else []))
    if !s.recv_done_info_ then
      (s, [Event.hostCall HostCall.udpRecvStopNow] ++ r.2 ++ [Event.nullDeref])
    else
      ({ s with recv_done_info_ := false },
        [Event.hostCall HostCall.udpRecvStopNow] ++ r.2 ++
          [Event.completeStored OpKind.rcv r.1])

/-- TCP arming tail of `inet_socket::receive` (socket.cpp lines 804-824):
the connect record is dereferenced on the calling thread (null when the
session was never connected), then the host read start is posted. -/
def receive_arm_tcp (s : inet_socket) : inet_socket × List Event :=
  if !s.connect_req_ then (s, [Event.nullDeref])
  else (s, [Event.post Work.tcpReadStart])

/-- `inet_socket::receive` (socket.cpp lines 734-826): InUse when a
receive is pending; otherwise record the read target and flags.  UDP arms
the host datagram delivery (storing the optional filter address).  TCP with
a non-empty accumulator completes immediately when take-available-only is
set or the request is at least the buffered amount (popping
min(request, buffered) bytes), silently stays pending when the request is
smaller than the buffered amount, and with an empty accumulator arms host
delivery.  There is no unopened check. -/
def receive (s : inet_socket) (data_size : Nat) (recv_size_present : Bool)
    (addr : Option SAddress) (flags : Nat) (has_cb : Bool) : inet_socket × List Event :=
  if s.recv_done_info_ then (s, [Event.completeSupplied GuestErr.error_in_use])
  else
    let s := { s with
      bytes_read_ := recv_size_present
      recv_size_ := data_size
      take_available_only_ := (flags &&& SOCKET_FLAG_DONT_WAIT_FULL) != 0
      receive_done_cb_ := has_cb
      recv_done_info_ := true
      listen_addr_ := invalid_saddress }
    if s.protocol_ = INET_UDP_PROTOCOL_ID then
      let s := match addr with
        | some a => { s with listen_addr_ := a }
        | none => s
      if !s.handle_ then (s, [Event.nullDeref])
      else (s, [Event.post Work.udpRecvStart])
    else
      match s.stream_data_buffer_ with
      | some buf =>
        if buf.length ≠ 0 then
          if s.take_available_only_ || decide (data_size ≥ buf.length) then
            let size_to_pop := min data_size buf.length
            let data_result := buf.take size_to_pop
            let s := { s with stream_data_buffer_ := some (buf.drop size_to_pop) }
            let evs :=
              (if recv_size_present then [Event.setBytesRead size_to_pop] else []) ++
                [Event.wroteDest data_result] ++
                (if has_cb then [Event.sideCb (Int.ofNat size_to_pop)] else [])
            ({ s with receive_done_cb_ := false, recv_done_info_ := false },
              evs ++ [Event.completeStored OpKind.rcv GuestErr.error_none])
          else (s, [])
        else receive_arm_tcp s
      | none => receive_arm_tcp s

/-- `inet_socket::cancel_receive` (socket.cpp lines 828-859): when a
receive is pending, post the host stop, drop the side callback, and
complete the pending notification with Cancel. -/
def cancel_receive (s : inet_socket) : inet_socket × List Event :=
  if !s.recv_done_info_ then (s, [])
  else
    let w := if s.protocol_ = INET_UDP_PROTOCOL_ID then Work.udpRecvStop else Work.tcpReadStop
    ({ s with receive_done_cb_ := false, recv_done_info_ := false },
      [Event.post w, Event.completeStored OpKind.rcv GuestErr.error_cancel])

/-- Fold a sequence of datagram deliveries through `handle_udp_delivery`,
concatenating the emitted events. -/
def deliver_udp_seq (s : inet_socket) (ds : List (Int × List Nat × NativeAddr)) :
    inet_socket × List Event :=
  ds.foldl (fun acc d =>
    let r := handle_udp_delivery acc.1 d.1 d.2.1 d.2.2
    (r.1, acc.2 ++ r.2)) (s, [])

/-- Outcome of one `GetAdaptersAddresses` host query. -/
inductive adapter_query_result where
  | success
  | buffer_overflow
  | other_error (code : Nat)
  deriving DecidableEq

/-- The fixed buffer size of the Windows enumeration path
(`common::KB(15)`). -/
def INITIAL_INTERFACE_INFO_BUFFER_SIZE : Nat := 15 * 1024

/-- The retry loop of `inet_socket::start_enumerate_network_interfaces`
(Windows branch, socket.cpp lines 987-1001), with an explicit fuel bound:
the host is a function of the supplied buffer size; on buffer overflow the
buffer is reallocated to `INITIAL_INTERFACE_INFO_BUFFER_SIZE` again (the
source passes the initial size, not `needed_size`) and the query retried.
`none` means the fuel ran out with the loop still running. -/
def get_adapters_loop (host : Nat → adapter_query_result) (buf_size : Nat) :
    Nat → Option Bool
  | 0 => none
  | fuel + 1 =>
    match host buf_size with
    | .success => some true
    | .other_error _ => some false
    | .buffer_overflow => get_adapters_loop host INITIAL_INTERFACE_INFO_BUFFER_SIZE fuel

/-- `inet_socket::start_enumerate_network_interfaces` (Windows branch,
socket.cpp lines 968-1012), fuel-bounded: take a fresh adapter snapshot,
retrying on buffer overflow. -/
def start_enumerate_network_interfaces (host : Nat → adapter_query_result) (fuel : Nat) :
    Option Bool :=
  get_adapters_loop host INITIAL_INTERFACE_INFO_BUFFER_SIZE fuel

/-- A host on which adapters need `needed` bytes: the query succeeds
exactly when the supplied buffer is at least that big, and reports buffer
overflow otherwise. -/
def overflow_host (needed : Nat) : Nat → adapter_query_result :=
  fun buf_size => if needed ≤ buf_size then .success else .buffer_overflow

/-- A concrete IPv4 guest address used by witnesses. -/
def addr0 : SAddress :=
  { family_ := INET_ADDRESS_FAMILY, port_ := 80, user_data_ := [127, 0, 0, 1],
    flow_ := 0, scope_ := 0 }

/-- An opened, connected TCP session. -/
def sTcpOpen : inet_socket :=
  { inet_socket.init with
    handle_ := true
    protocol_ := INET_TCP_PROTOCOL_ID
    connect_req_ := true }

/-- An opened UDP session. -/
def sUdpOpen : inet_socket :=
  { inet_socket.init with handle_ := true, protocol_ := INET_UDP_PROTOCOL_ID }

/-- An opened TCP session with a connect, a send and a receive all
pending. -/
def sAllPend : inet_socket :=
  { sTcpOpen with
    write_req_ := true
    connect_done_info_ := true
    send_done_info_ := true
    recv_done_info_ := true }

/-- An opened TCP session whose stream accumulator holds two leftover
bytes. -/
def sBuf2 : inet_socket := { sTcpOpen with stream_data_buffer_ := some [7, 8] }

/-- State after arming a 10-byte wait-for-full stream receive on
`sTcpOpen`. -/
def c4_s1 : inet_socket := (receive sTcpOpen 10 true none 0 false).1

/-- State after the first 3-byte chunk was delivered. -/
def c4_s2 : inet_socket := (handle_tcp_delivery c4_s1 3 [1, 2, 3]).1

/-- State after the second 4-byte chunk was delivered. -/
def c4_s3 : inet_socket := (handle_tcp_delivery c4_s2 4 [4, 5, 6, 7]).1

/-- State after arming a 10-byte take-available-only stream receive on
`sTcpOpen`. -/
def c4_t1 : inet_socket :=
  (receive sTcpOpen 10 true none SOCKET_FLAG_DONT_WAIT_FULL false).1

/-- State after arming a 4-byte datagram receive filtered on `addr0`. -/
def c5_armed : inet_socket := (receive sUdpOpen 4 true (some addr0) 0 false).1

/-- An opened TCP session with a pending connect notification. -/
def c8_pend : inet_socket := { sTcpOpen with connect_done_info_ := true }

/-- C6 reachability chain: open a TCP session, start a connect, then tear
the session down while the connect is still pending. -/
def c6_s3 : inet_socket :=
  (close_down (connect (open_socket inet_socket.init INET_ADDRESS_FAMILY
    INET_TCP_PROTOCOL_ID socket_type.socket_type_stream 0).1 addr0).1).1

/-- Discarding half of C5: an armed filter that the sender fails leaves
the state untouched and emits nothing. -/
lemma udp_delivery_discard (s : inet_socket) (n : Int) (chunk : List Nat)
    (sender : NativeAddr) (hfam : s.listen_addr_.family_ ≠ INVALID_FAMILY_ID)
    (hns : is_same_address s.listen_addr_ sender = false) :
    handle_udp_delivery s n chunk sender = (s, []) := by
  unfold handle_udp_delivery
  rw [if_pos]
  exact ⟨hfam, by simp [hns]⟩

/-- Failing deliveries fold to nothing. -/
lemma deliver_udp_seq_all_discarded (s : inet_socket)
    (hfam : s.listen_addr_.family_ ≠ INVALID_FAMILY_ID) :
    ∀ ds : List (Int × List Nat × NativeAddr),
      (∀ d ∈ ds, is_same_address s.listen_addr_ d.2.2 = false) →
      deliver_udp_seq s ds = (s, []) := by
  intro ds
  induction ds with
  | nil => intro _; rfl
  | cons d t ih =>
    intro hall
    have h1 : handle_udp_delivery s d.1 d.2.1 d.2.2 = (s, []) :=
      udp_delivery_discard s d.1 d.2.1 d.2.2 hfam (hall d (List.mem_cons_self d t))
    have ht := ih (fun x hx => hall x (List.mem_cons_of_mem d hx))
    simp only [deliver_udp_seq, List.foldl_cons] at *
    rw [h1] at *
    simpa using ht

/-- Claim C1 (code_bug evidence): on a freshly created, never-opened
session, connect completes the supplied notification with NotReady and
schedules no work, but send and receive perform no open-state check at
all: send optimistically writes the full length through the out pointer
and then dereferences the null TCP connect record, receive dereferences it
while arming, and neither ever completes the notification with NotReady.
-/
theorem C1_unopened_send_receive_eval :
    connect inet_socket.init addr0 =
      (inet_socket.init, [Event.completeSupplied GuestErr.error_not_ready]) ∧
    (send inet_socket.init 5 true none 0).2 = [Event.setBytesWritten 5, Event.nullDeref] ∧
    Event.completeSupplied GuestErr.error_not_ready ∉ (send inet_socket.init 5 true none 0).2 ∧
    (receive inet_socket.init 10 true none 0 false).2 = [Event.nullDeref] ∧
    Event.completeSupplied GuestErr.error_not_ready ∉
      (receive inet_socket.init 10 true none 0 false).2 := by
  decide

/-- Claim C2 counterexample: with a connect, a send and a receive all
pending, `close_down` emits no completion at all (in particular no Cancel),
leaving all three notification slots still pending; the claim asserts each
of the three is completed with Cancel exactly once. -/
theorem C2_close_completes_nothing_cex :
    (close_down sAllPend).2 = [Event.post Work.closeHandle] ∧
    (close_down sAllPend).2.filter isCompletion = [] ∧
    (close_down sAllPend).1.connect_done_info_ = true ∧
    (close_down sAllPend).1.send_done_info_ = true ∧
    (close_down sAllPend).1.recv_done_info_ = true := by
  decide

/-- Claim C2 (amended): with a connect, a send and a receive all pending,
`close_down` completes none of the pending notifications (no Cancel is
delivered; all three slots stay pending), destroys the native handle and
frees the per-operation request records; a second `close_down` is a no-op,
and a subsequent open on the same session succeeds. -/
theorem C2_close_down_amended (s : inet_socket)
    (hh : s.handle_ = true) (hc : s.connect_done_info_ = true)
    (hs : s.send_done_info_ = true) (hr : s.recv_done_info_ = true) :
    (close_down s).2.filter isCompletion = [] ∧
    (close_down s).1.connect_done_info_ = true ∧
    (close_down s).1.send_done_info_ = true ∧
    (close_down s).1.recv_done_info_ = true ∧
    (close_down s).1.handle_ = false ∧
    (close_down s).1.protocol_ = 0 ∧
    (close_down s).1.connect_req_ = false ∧
    (close_down s).1.send_req_ = false ∧
    (close_down s).1.write_req_ = false ∧
    close_down (close_down s).1 = ((close_down s).1, []) ∧
    (∀ rc : Int, ¬rc < 0 →
      (open_socket (close_down s).1 INET_ADDRESS_FAMILY INET_TCP_PROTOCOL_ID
        socket_type.socket_type_stream rc).2.1 = true) := by
  refine ⟨?_, ?_, ?_, ?_, ?_, ?_, ?_, ?_, ?_, ?_, ?_⟩ <;>
    simp [close_down, open_socket, open_cont, hh, hc, hs, hr, isCompletion,
      INET_TCP_PROTOCOL_ID]
  intro rc hrc
  rw [if_neg (by omega : ¬rc < 0)]

/-- Witness for C2 (amended) at the concrete all-pending session. -/
theorem C2_close_down_amended_witness :
    (close_down sAllPend).2.filter isCompletion = [] :=
  (C2_close_down_amended sAllPend rfl rfl rfl rfl).1

/-- Claim C3 (code_bug evidence): opening a fresh session as a TCP stream
socket with the native init returning -1 reports failure but leaves the
freshly allocated native handle installed (with the protocol still unset),
so the immediate retry with a succeeding native init fails the
already-opened check instead of succeeding. -/
theorem C3_open_failure_not_retryable :
    (open_socket inet_socket.init INET_ADDRESS_FAMILY INET_TCP_PROTOCOL_ID
      socket_type.socket_type_stream (-1)).2.1 = false ∧
    (open_socket inet_socket.init INET_ADDRESS_FAMILY INET_TCP_PROTOCOL_ID
      socket_type.socket_type_stream (-1)).1.handle_ = true ∧
    (open_socket inet_socket.init INET_ADDRESS_FAMILY INET_TCP_PROTOCOL_ID
      socket_type.socket_type_stream (-1)).1.protocol_ = 0 ∧
    (open_socket (open_socket inet_socket.init INET_ADDRESS_FAMILY INET_TCP_PROTOCOL_ID
        socket_type.socket_type_stream (-1)).1 INET_ADDRESS_FAMILY INET_TCP_PROTOCOL_ID
      socket_type.socket_type_stream 0).2.1 = false := by
  decide

/-- Claim C4 counterexample: a stream receive of 10 bytes with wait-for-full
set, issued while the accumulator holds only 2 bytes, is NOT left waiting
for host delivery as the claim states: it completes immediately with the 2
buffered bytes and arms nothing. -/
theorem C4_stream_receive_cex :
    (receive sBuf2 10 true none 0 false).2 =
      [Event.setBytesRead 2, Event.wroteDest [7, 8],
       Event.completeStored OpKind.rcv GuestErr.error_none] ∧
    (receive sBuf2 10 true none 0 false).2.filter isPost = [] ∧
    (receive sBuf2 10 true none 0 false).1.recv_done_info_ = false := by
  decide

/-- Claim C4 (amended): for a stream receive, when the accumulator is
non-empty the read completes immediately with min(requested, buffered)
bytes (no host work armed) whenever take-available-only is set or the
request is at least the buffered amount — even under wait-for-full with
fewer bytes than requested; when wait-for-full is set and the request is
smaller than the buffered amount, the receive is left pending with no work
scheduled at all; with an absent accumulator host delivery is armed, and
delivered chunks are pushed into the accumulator until it covers the
request.  In particular chunks [3, 4, 5] against a pending 10-byte
wait-for-full receive complete only after the third chunk with exactly 10
bytes and 2 bytes left buffered, and the same sequence under
take-available-only completes after the first chunk with 3 bytes. -/
theorem C4_stream_receive_amended :
    (∀ (s : inet_socket) (buf : List Nat) (ds : Nat) (sp cb : Bool),
      s.recv_done_info_ = false → s.protocol_ = INET_TCP_PROTOCOL_ID →
      s.stream_data_buffer_ = some buf → buf ≠ [] → buf.length ≤ ds →
      (receive s ds sp none 0 cb).2 =
        (if sp then [Event.setBytesRead (min ds buf.length)] else []) ++
          [Event.wroteDest (buf.take (min ds buf.length))] ++
          (if cb then [Event.sideCb (Int.ofNat (min ds buf.length))] else []) ++
          [Event.completeStored OpKind.rcv GuestErr.error_none] ∧
      (receive s ds sp none 0 cb).1.stream_data_buffer_ =
        some (buf.drop (min ds buf.length)) ∧
      (receive s ds sp none 0 cb).1.recv_done_info_ = false ∧
      (receive s ds sp none 0 cb).2.filter isPost = []) ∧
    (∀ (s : inet_socket) (buf : List Nat) (ds : Nat) (sp cb : Bool),
      s.recv_done_info_ = false → s.protocol_ = INET_TCP_PROTOCOL_ID →
      s.stream_data_buffer_ = some buf → ds < buf.length →
      (receive s ds sp none 0 cb).2 = [] ∧
      (receive s ds sp none 0 cb).1.recv_done_info_ = true ∧
      (receive s ds sp none 0 cb).1.stream_data_buffer_ = some buf) ∧
    (∀ (s : inet_socket) (buf : List Nat) (ds : Nat) (sp cb : Bool),
      s.recv_done_info_ = false → s.protocol_ = INET_TCP_PROTOCOL_ID →
      s.stream_data_buffer_ = some buf → buf ≠ [] →
      (receive s ds sp none SOCKET_FLAG_DONT_WAIT_FULL cb).2 =
        (if sp then [Event.setBytesRead (min ds buf.length)] else []) ++
          [Event.wroteDest (buf.take (min ds buf.length))] ++
          (if cb then [Event.sideCb (Int.ofNat (min ds buf.length))] else []) ++
          [Event.completeStored OpKind.rcv GuestErr.error_none]) ∧
    (∀ (s : inet_socket) (ds : Nat) (sp cb : Bool),
      s.recv_done_info_ = false → s.protocol_ = INET_TCP_PROTOCOL_ID →
      s.connect_req_ = true → s.stream_data_buffer_ = none →
      (receive s ds sp none 0 cb).2 = [Event.post Work.tcpReadStart] ∧
      (receive s ds sp none 0 cb).1.recv_done_info_ = true) ∧
    ((receive sTcpOpen 10 true none 0 false).2 = [Event.post Work.tcpReadStart] ∧
      (handle_tcp_delivery c4_s1 3 [1, 2, 3]).2 = [] ∧
      c4_s2.stream_data_buffer_ = some [1, 2, 3] ∧
      c4_s2.recv_done_info_ = true ∧
      (handle_tcp_delivery c4_s2 4 [4, 5, 6, 7]).2 = [] ∧
      c4_s3.stream_data_buffer_ = some [1, 2, 3, 4, 5, 6, 7] ∧
      c4_s3.recv_done_info_ = true ∧
      (handle_tcp_delivery c4_s3 5 [8, 9, 10, 11, 12]).2 =
        [Event.wroteDest [1, 2, 3, 4, 5, 6, 7, 8, 9, 10], Event.setBytesRead 10,
         Event.hostCall HostCall.tcpReadStopNow,
         Event.completeStored OpKind.rcv GuestErr.error_none] ∧
      (handle_tcp_delivery c4_s3 5 [8, 9, 10, 11, 12]).1.stream_data_buffer_ =
        some [11, 12] ∧
      (handle_tcp_delivery c4_s3 5 [8, 9, 10, 11, 12]).1.recv_done_info_ = false) ∧
    ((handle_tcp_delivery c4_t1 3 [1, 2, 3]).2 =
      [Event.wroteDest [1, 2, 3], Event.setBytesRead 3,
       Event.hostCall HostCall.tcpReadStopNow,
       Event.completeStored OpKind.rcv GuestErr.error_none] ∧
      (handle_tcp_delivery c4_t1 3 [1, 2, 3]).1.recv_done_info_ = false) := by
  refine ⟨?_, ?_, ?_, ?_, by decide, by decide⟩
  · intro s buf ds sp cb hr hp hb hne hge
    have hlen : buf.length ≠ 0 := by simpa using hne
    refine ⟨?_, ?_, ?_, ?_⟩ <;>
      simp [receive, hr, hp, hb, hlen, hge, Nat.not_lt.mpr hge,
        INET_TCP_PROTOCOL_ID, INET_UDP_PROTOCOL_ID, SOCKET_FLAG_DONT_WAIT_FULL,
        isPost, List.filter_append]
  · intro s buf ds sp cb hr hp hb hlt
    have hlen : buf.length ≠ 0 := by omega
    have hnge : ¬ds ≥ buf.length := by omega
    refine ⟨?_, ?_, ?_⟩ <;>
      simp [receive, hr, hp, hb, hlen, hnge,
        INET_TCP_PROTOCOL_ID, INET_UDP_PROTOCOL_ID, SOCKET_FLAG_DONT_WAIT_FULL]
  · intro s buf ds sp cb hr hp hb hne
    have hlen : buf.length ≠ 0 := by simpa using hne
    simp [receive, hr, hp, hb, hlen,
      INET_TCP_PROTOCOL_ID, INET_UDP_PROTOCOL_ID, SOCKET_FLAG_DONT_WAIT_FULL]
  · intro s ds sp cb hr hp hcr hb
    refine ⟨?_, ?_⟩ <;>
      simp [receive, receive_arm_tcp, hr, hp, hcr, hb,
        INET_TCP_PROTOCOL_ID, INET_UDP_PROTOCOL_ID, SOCKET_FLAG_DONT_WAIT_FULL]

/-- Witness for C4 (amended): the immediate-completion rule applied to the
concrete two-bytes-buffered session. -/
theorem C4_stream_receive_amended_witness :
    (receive sBuf2 10 true none 0 true).2 =
      (if true then [Event.setBytesRead (min 10 2)] else []) ++
        [Event.wroteDest [7, 8]] ++
        (if true then [Event.sideCb (Int.ofNat (min 10 2))] else []) ++
        [Event.completeStored OpKind.rcv GuestErr.error_none] ∧
    (receive sBuf2 10 true none 0 true).1.stream_data_buffer_ = some [] ∧
    (receive sBuf2 10 true none 0 true).1.recv_done_info_ = false ∧
    (receive sBuf2 10 true none 0 true).2.filter isPost = [] :=
  C4_stream_receive_amended.1 sBuf2 [7, 8] 10 true true rfl rfl rfl
    (by decide) (by decide)

/-- Claim C5 (confirmed): with a datagram receive armed with a filter
address, every arriving datagram whose sender fails `is_same_address` is
silently discarded — the state is untouched, nothing is completed, and
delivery stays armed — and this holds for any sequence of such datagrams;
the first delivery whose sender matches stops host delivery and completes
the pending receive notification with None after writing
min(delivered, requested) bytes and that count through the out pointer. -/
theorem C5_udp_filter_receive :
    (∀ (s : inet_socket) (n : Int) (chunk : List Nat) (sender : NativeAddr),
      s.listen_addr_.family_ ≠ INVALID_FAMILY_ID →
      is_same_address s.listen_addr_ sender = false →
      handle_udp_delivery s n chunk sender = (s, [])) ∧
    (∀ (s : inet_socket) (ds : List (Int × List Nat × NativeAddr)),
      s.listen_addr_.family_ ≠ INVALID_FAMILY_ID →
      (∀ d ∈ ds, is_same_address s.listen_addr_ d.2.2 = false) →
      deliver_udp_seq s ds = (s, [])) ∧
    (∀ (s : inet_socket) (n : Int) (chunk : List Nat) (sender : NativeAddr),
      s.handle_ = true → s.recv_done_info_ = true → s.bytes_read_ = true →
      0 ≤ n →
      is_same_address s.listen_addr_ sender = true →
      handle_udp_delivery s n chunk sender =
        ({ s with recv_done_info_ := false },
         [Event.hostCall HostCall.udpRecvStopNow,
          Event.wroteDest (chunk.take (min n.toNat s.recv_size_)),
          Event.setBytesRead (min n.toNat s.recv_size_),
          Event.completeStored OpKind.rcv GuestErr.error_none])) := by
  refine ⟨udp_delivery_discard, ?_, ?_⟩
  · intro s ds hfam hall
    exact deliver_udp_seq_all_discarded s hfam ds hall
  · intro s n chunk sender hh hr hbr hn hmatch
    have heof : n ≠ UV_EOF := by
      intro h
      rw [h] at hn
      exact absurd hn (by decide)
    have hneg : ¬n < 0 := by omega
    simp [handle_udp_delivery, hh, hr, hbr, hmatch, heof, hneg]

/-- Witness for C5 at a concrete armed filtered receive: a mismatching
sender is discarded. -/
theorem C5_udp_filter_receive_witness :
    handle_udp_delivery c5_armed 6 [9, 9, 9, 9, 9, 9] (NativeAddr.v4 81 [127, 0, 0, 1]) =
      (c5_armed, []) :=
  C5_udp_filter_receive.1 c5_armed 6 [9, 9, 9, 9, 9, 9]
    (NativeAddr.v4 81 [127, 0, 0, 1]) (by decide) (by decide)

/-- Claim C6 counterexample: a session can hold a pending connect with no
native handle (reached here by open, connect, close_down); a second
connect on it completes the new notification with NotReady, not InUse as
the claim states for every session with a pending operation of the same
kind. -/
theorem C6_second_connect_cex :
    c6_s3.connect_done_info_ = true ∧
    c6_s3.handle_ = false ∧
    (connect c6_s3 addr0).2 = [Event.completeSupplied GuestErr.error_not_ready] ∧
    Event.completeSupplied GuestErr.error_in_use ∉ (connect c6_s3 addr0).2 := by
  decide

/-- Claim C6 (amended): starting a send (resp. receive) while one of the
same kind is pending completes the new notification with InUse and leaves
the session state — including the pending slot and recorded target —
completely untouched; starting a connect while one is pending does so too,
provided the native handle still exists (without a handle the NotReady
check fires first). -/
theorem C6_second_op_in_use_amended :
    (∀ (s : inet_socket) (a : SAddress),
      s.handle_ = true → s.connect_done_info_ = true →
      connect s a = (s, [Event.completeSupplied GuestErr.error_in_use])) ∧
    (∀ (s : inet_socket) (n : Nat) (sp : Bool) (a : Option SAddress) (f : Nat),
      s.send_done_info_ = true →
      send s n sp a f = (s, [Event.completeSupplied GuestErr.error_in_use])) ∧
    (∀ (s : inet_socket) (n : Nat) (sp : Bool) (a : Option SAddress) (f : Nat) (cb : Bool),
      s.recv_done_info_ = true →
      receive s n sp a f cb = (s, [Event.completeSupplied GuestErr.error_in_use])) := by
  refine ⟨?_, ?_, ?_⟩
  · intro s a hh hc
    simp [connect, hh, hc]
  · intro s n sp a f hs
    simp [send, hs]
  · intro s n sp a f cb hr
    simp [receive, hr]

/-- Witness for C6 (amended): a second send on the all-pending session. -/
theorem C6_second_op_in_use_amended_witness :
    send sAllPend 5 true none 0 = (sAllPend, [Event.completeSupplied GuestErr.error_in_use]) :=
  C6_second_op_in_use_amended.2.1 sAllPend 5 true none 0 rfl

/-- Claim C7 counterexample: on an opened UDP session, bind performs the
host bind directly on the calling thread and completes None — no work at
all is posted to the loop thread, contradicting the claim that the host
bind is posted there. -/
theorem C7_bind_no_post_cex :
    (bind sUdpOpen addr0 0).2 =
      [Event.hostCall HostCall.udpBind, Event.completeSupplied GuestErr.error_none] ∧
    (bind sUdpOpen addr0 0).2.filter isPost = [] := by
  decide

/-- Claim C7 (amended): bind fails NotReady when the session is unopened;
otherwise it invokes the host bind directly on the calling thread (no work
is posted to the loop thread), leaves the session state untouched, and
completes the supplied notification with None immediately after the call —
with the very same outcome whatever result the host bind produces. -/
theorem C7_bind_amended :
    (∀ (s : inet_socket) (a : SAddress) (r : Int), s.handle_ = false →
      bind s a r = (s, [Event.completeSupplied GuestErr.error_not_ready])) ∧
    (∀ (s : inet_socket) (a : SAddress) (r₁ r₂ : Int), s.handle_ = true →
      bind s a r₁ = bind s a r₂ ∧
      (bind s a r₁).1 = s ∧
      (bind s a r₁).2 =
        [Event.hostCall (if s.protocol_ = INET_UDP_PROTOCOL_ID then HostCall.udpBind
          else HostCall.tcpBind),
         Event.completeSupplied GuestErr.error_none] ∧
      (bind s a r₁).2.filter isPost = []) := by
  refine ⟨?_, ?_⟩
  · intro s a r hh
    simp [bind, hh]
  · intro s a r₁ r₂ hh
    by_cases hp : s.protocol_ = INET_UDP_PROTOCOL_ID <;>
      refine ⟨rfl, ?_, ?_, ?_⟩ <;> simp [bind, hh, hp, isPost]

/-- Witness for C7 (amended) on the opened UDP session with two different
host outcomes. -/
theorem C7_bind_amended_witness :
    bind sUdpOpen addr0 3 = bind sUdpOpen addr0 (-7) :=
  (C7_bind_amended.2 sUdpOpen addr0 3 (-7) rfl).1

/-- Claim C8 (confirmed): whenever a connect notification is pending, a
native connect completion is translated by the fixed table — access
denied to PermissionDenied, address in use to the in-use code (the guest
code KErrInUse, the AddressInUse taxon of the spec), address not
available to Argument, family unsupported and operation unsupported to
NotSupported, connection refused to ServerBusy, timed out to TimedOut,
zero to None, and every other native code to General. -/
theorem C8_connect_error_mapping (s : inet_socket) (h : s.connect_done_info_ = true) :
    (handle_connect_done_error_code s 0).2 =
      [Event.completeStored OpKind.conn GuestErr.error_none] ∧
    (handle_connect_done_error_code s UV_EACCES).2 =
      [Event.completeStored OpKind.conn GuestErr.error_permission_denied] ∧
    (handle_connect_done_error_code s UV_EADDRINUSE).2 =
      [Event.completeStored OpKind.conn GuestErr.error_in_use] ∧
    (handle_connect_done_error_code s UV_EADDRNOTAVAIL).2 =
      [Event.completeStored OpKind.conn GuestErr.error_argument] ∧
    (handle_connect_done_error_code s UV_EAFNOSUPPORT).2 =
      [Event.completeStored OpKind.conn GuestErr.error_not_supported] ∧
    (handle_connect_done_error_code s UV_ECONNREFUSED).2 =
      [Event.completeStored OpKind.conn GuestErr.error_server_busy] ∧
    (handle_connect_done_error_code s UV_ENOTSUP).2 =
      [Event.completeStored OpKind.conn GuestErr.error_not_supported] ∧
    (handle_connect_done_error_code s UV_ETIMEDOUT).2 =
      [Event.completeStored OpKind.conn GuestErr.error_timed_out] ∧
    (∀ ec : Int, ec ≠ 0 →
      ec ∉ ([UV_EACCES, UV_EADDRINUSE, UV_EADDRNOTAVAIL, UV_EAFNOSUPPORT,
             UV_ECONNREFUSED, UV_ENOTSUP, UV_ETIMEDOUT] : List Int) →
      (handle_connect_done_error_code s ec).2 =
        [Event.completeStored OpKind.conn GuestErr.error_general]) := by
  refine ⟨?_, ?_, ?_, ?_, ?_, ?_, ?_, ?_, ?_⟩ <;>
    simp [handle_connect_done_error_code, h, UV_EACCES, UV_EADDRINUSE,
      UV_EADDRNOTAVAIL, UV_EAFNOSUPPORT, UV_ECONNREFUSED, UV_ENOTSUP, UV_ETIMEDOUT]
  intro ec h0 h1 h2 h3 h4 h5 h6 h7
  simp [h0, h1, h2, h3, h4, h5, h6, h7]

/-- Witness for C8 at the concrete pending-connect session: connection
refused maps to ServerBusy. -/
theorem C8_connect_error_mapping_witness :
    (handle_connect_done_error_code c8_pend UV_ECONNREFUSED).2 =
      [Event.completeStored OpKind.conn GuestErr.error_server_busy] :=
  (C8_connect_error_mapping c8_pend rfl).2.2.2.2.2.1

/-- Claim C9 (code_bug evidence): running either delivery handler with no
pending receive notification (as after a completed cancel_receive racing a
late delivery) completes nothing — but, far from never dereferencing the
kernel-owner pointer, each handler reaches the locking step with that
pointer still null and dereferences it (the `nullDeref` event). -/
theorem C9_delivery_null_deref_eval :
    sUdpOpen.recv_done_info_ = false ∧
    Event.nullDeref ∈
      (handle_udp_delivery sUdpOpen 5 [1, 2, 3, 4, 5] (NativeAddr.v4 80 [127, 0, 0, 1])).2 ∧
    (handle_udp_delivery sUdpOpen 5 [1, 2, 3, 4, 5]
      (NativeAddr.v4 80 [127, 0, 0, 1])).2.filter isCompletion = [] ∧
    sTcpOpen.recv_done_info_ = false ∧
    Event.nullDeref ∈ (handle_tcp_delivery sTcpOpen 5 [1, 2, 3, 4, 5]).2 ∧
    (handle_tcp_delivery sTcpOpen 5 [1, 2, 3, 4, 5]).2.filter isCompletion = [] := by
  decide

/-- Claim C10 (code_bug evidence): against a host whose adapters need more
than the fixed 15 KB buffer — so that every query with that buffer reports
buffer overflow — the enumeration retry loop never exits: the source
reallocates the buffer to the same initial size instead of the reported
needed size, so no amount of fuel makes the loop terminate. -/
theorem C10_enumerate_retry_never_exits :
    ∀ fuel : Nat,
      start_enumerate_network_interfaces (overflow_host 20000) fuel = none := by
  intro fuel
  unfold start_enumerate_network_interfaces
  induction fuel with
  | zero => rfl
  | succ n ih =>
    have hstep : overflow_host 20000 INITIAL_INTERFACE_INFO_BUFFER_SIZE =
        adapter_query_result.buffer_overflow := by decide
    rw [get_adapters_loop, hstep]
    exact ih

end Inet
